import Mathlib

/-!
Verification development for the mcp_customer_support refund/return
adjudication pipeline.  The Python sources are shallowly embedded as
executable Lean definitions, and the behavioural claims about the pipeline
are settled as theorems over those definitions.

Conventions used throughout the embedding:
  * Python strings are `String` / `List Char`; all inputs of interest are
    ASCII, so `Char.toLower` matches Python `str.lower`.
  * Python `None` is `Option.none`; truthiness of an optional string
    (`None` and `""` are falsy) is `optTruthy`.
  * Python `int` is `Int` (arbitrary precision in both languages).
  * Timestamps are represented by their canonical formatted string, so the
    `strftime("%Y%m%dT%H%M%SZ")` rendering of a parsed timestamp is the
    identity on this representation.
-/

/-! ## Python string primitives -/

/-- Python `str.split()` word splitter on a character list: maximal runs of
non-whitespace characters (empty runs dropped).  Implemented by a right
fold; the head of the accumulator is the word currently being built. -/
def wordsAux (c : Char) (acc : List (List Char)) : List (List Char) :=
  if c.isWhitespace then [] :: acc
  else
    match acc with
    | [] => [[c]]
    | w :: ws => (c :: w) :: ws

/-- Python `str.split()` (no separator argument): whitespace-separated
words, empties dropped. -/
def pyWords (l : List Char) : List (List Char) :=
  (l.foldr wordsAux []).filter (fun w => !w.isEmpty)

/-- Python `" ".join(words)`: concatenate with single spaces between. -/
def joinSpace : List (List Char) → List Char
  | [] => []
  | [w] => w
  | w :: ws => w ++ ' ' :: joinSpace ws

/-- Python `" ".join(s.split())` as used by `_normalize_sql`: collapse all
whitespace runs to single spaces and strip the ends. -/
def pyNormalizeL (l : List Char) : List Char :=
  joinSpace (pyWords l)

/-- Python `str.strip()` on a character list. -/
def pyStripL (l : List Char) : List Char :=
  ((l.dropWhile Char.isWhitespace).reverse.dropWhile Char.isWhitespace).reverse

/-- Lowercase every character (Python `str.lower` on ASCII input). -/
def pyLowerL (l : List Char) : List Char := l.map Char.toLower

/-- Python `str.strip(chars)`: drop the given characters from both ends. -/
def pyStripChars (cs : List Char) (l : List Char) : List Char :=
  ((l.dropWhile (fun c => cs.contains c)).reverse.dropWhile
      (fun c => cs.contains c)).reverse

/-- Does `p` occur at the start of `l`? -/
def startsL : List Char → List Char → Bool
  | [], _ => true
  | _ :: _, [] => false
  | p :: ps, c :: cs => p == c && startsL ps cs

/-- Does `p` occur at the end of `l`? -/
def endsL (p l : List Char) : Bool :=
  startsL p.reverse l.reverse

/-- Python `pattern in s` substring test. -/
def occursIn (p : List Char) : List Char → Bool
  | [] => p.isEmpty
  | c :: cs => startsL p (c :: cs) || occursIn p cs

/-- Python `s.count(pattern)` for a pattern that cannot overlap itself
(such as `"%s"`): number of start positions at which the pattern occurs. -/
def countOcc (p : List Char) : List Char → Nat
  | [] => 0
  | c :: cs => (if startsL p (c :: cs) then 1 else 0) + countOcc p cs

/-- Truthiness of an optional Python string (`None` and `""` are falsy). -/
def optTruthy : Option String → Bool
  | none => false
  | some s => !(s == "")

/-! ## Cursor model of the Gmail event processor
(`gmail-event-processor/gmail_processor.py`, `history_store.py`).

`load_history_id` returns 0 when the Firestore document is absent, and
`process_new_emails` treats 0 as the cold-start marker (`if not
last_history_id`).  Gmail history ids are unsigned decimal values, so the
cursor is a `Nat`.  The function below returns the value passed to
`save_history_id` at the end of the run: the profile history id on
cold start, otherwise the running `max` over the history delta ids,
seeded with the loaded cursor. -/

def process_new_emails_cursor (last : Nat) (profileHistoryId : Nat)
    (historyIds : List Nat) : Nat :=
  if last = 0 then profileHistoryId
  else historyIds.foldl (fun m i => max m i) last

theorem le_foldl_max (ids : List Nat) :
    ∀ init : Nat, init ≤ ids.foldl (fun m i => max m i) init := by
  induction ids with
  | nil => intro init; exact Nat.le_refl _
  | cons a t ih =>
      intro init
      exact Nat.le_trans (Nat.le_max_left init a) (ih (max init a))

/-- Claim C7: for every processed push notification the history cursor
value written at the end (`save_history_id`) is at least the cursor value
read at the start (`load_history_id`); the cursor is never written
backwards. -/
theorem c7_cursor_monotone (last profileHistoryId : Nat)
    (historyIds : List Nat) :
    last ≤ process_new_emails_cursor last profileHistoryId historyIds := by
  unfold process_new_emails_cursor
  by_cases h : last = 0
  · simp [h]
  · simp only [if_neg h]
    exact le_foldl_max historyIds last

/-! ## Adjudicator decision engine
(`policy_compiler_agents/adjudicator_agent.py`).

`Adjudicator.make_decision` is pure Python over a context dict and a list
of rule dicts fetched from Neo4j.  Rule property values coming back from
the graph are JSON-like scalars, embedded as `JVal`.  A missing key and an
explicit `null` both read back as Python `None` through `rule.get`, so
`days_allowed` is an `Option JVal` where `none` covers the missing key and
`JVal.jnull` the stored null (the code treats both identically via
`days_allowed is None` after `rule.get`). -/

inductive JVal
  | jnull
  | jint (n : Int)
  | jstr (s : String)
deriving DecidableEq, Repr

/-- Python `int(x)` on a string: strip whitespace, optional sign, decimal
digits.  (Underscore digit separators accepted by CPython are not
modelled; no input in this development uses them.) -/
def parseIntPy (s : String) : Option Int :=
  let t := pyStripL s.data
  let core : List Char → Option Nat := fun ds =>
    if ds.isEmpty || !(ds.all Char.isDigit) then none
    else some (ds.foldl (fun a c => a * 10 + (c.toNat - 48)) 0)
  match t with
  | '-' :: rest => (core rest).map (fun n => -(n : Int))
  | '+' :: rest => (core rest).map (fun n => (n : Int))
  | _ => (core t).map (fun n => (n : Int))

/-- Python `int(x)` on a JSON scalar, as used on `days_allowed`: succeeds
on ints and integer-looking strings, fails (raises in Python) otherwise. -/
def pyToInt : JVal → Option Int
  | .jint n => some n
  | .jstr s => parseIntPy s
  | .jnull => none

/-- One rule row returned by the `HAS_RETURN_RULE` Cypher query.
`conditions = none` covers both a missing key and a non-list value (the
code skips the condition check in either case via the
`isinstance(required_conditions, list)` guard).  The
`restocking_fee_percent` property only feeds the reported fee figure of an
APPROVED result, which no claim references, so it is not carried here. -/
structure Rule where
  rule_name : Option String
  name : Option String
  days_allowed : Option JVal
  conditions : Option (List String)
deriving Repr

/-- The context dict built by `Adjudicator.build_context`, restricted to
the keys read by `make_decision`. -/
structure AdjContext where
  days_since_delivery : Int
  item_condition : String
  return_reason : String
deriving Repr

/-- Result of `make_decision`: the decision string plus the reason.  The
branch-specific extra keys (`days_remaining`, `rule_applied`, fee) are not
modelled; no claim references them. -/
structure DecisionResult where
  decision : String
  reason : String
deriving Repr, DecidableEq

/-- The `condition_mapping` dict literal inside `make_decision`
(`dict.get` with default `[]`). -/
def condition_mapping : String → List String
  | "NEW_UNOPENED" => ["unopened", "new", "sealed"]
  | "OPENED_LIKE_NEW" => ["opened", "like new", "good"]
  | "DAMAGED_DEFECTIVE" => ["damaged", "defective"]
  | "MISSING_PARTS" => ["incomplete", "missing parts"]
  | "UNKNOWN" => []
  | _ => []

/-- `Adjudicator.make_decision` (adjudicator_agent.py lines 395-483),
translated clause by clause.  `rule.get("rule_name") or rule.get("name",
"Unknown Rule")` is the truthy-or over the two optional names. -/
def make_decision (context : AdjContext) (rules : List Rule) : DecisionResult :=
  let days_since := context.days_since_delivery
  let item_condition := context.item_condition
  match rules with
  | [] =>
      ⟨"MANUAL_REVIEW", "No applicable return rules found in policy database"⟩
  | rule :: _ =>
      let rule_name :=
        if optTruthy rule.rule_name then rule.rule_name.getD "Unknown Rule"
        else (rule.name.getD "Unknown Rule")
      match rule.days_allowed with
      | none =>
          ⟨"MANUAL_REVIEW",
            "Rule " ++ rule_name ++ " has no defined return window"⟩
      | some .jnull =>
          ⟨"MANUAL_REVIEW",
            "Rule " ++ rule_name ++ " has no defined return window"⟩
      | some v =>
          match pyToInt v with
          | none => ⟨"MANUAL_REVIEW", "Invalid days_allowed value"⟩
          | some days_allowed =>
              if days_since > days_allowed then
                ⟨"DENIED", "Return window expired"⟩
              else
                let required_conditions := rule.conditions.getD []
                let acceptable := condition_mapping item_condition
                let condition_met :=
                  required_conditions.isEmpty ||
                    required_conditions.any
                      (fun cond =>
                        (acceptable.map (fun c => pyLowerL c.data)).contains
                          (pyLowerL cond.data))
                if !condition_met && !required_conditions.isEmpty then
                  ⟨"DENIED",
                    "Item condition does not meet requirements"⟩
                else
                  ⟨"APPROVED", "Return eligible under " ++ rule_name ++ " policy"⟩

/-- The `days_since_delivery` computation of `Adjudicator.build_context`
(adjudicator_agent.py lines 534-570).  Dates are embedded as day ordinals
(`Int`), so the Python `(a.date() - b.date()).days` subtraction is integer
subtraction; `testOverride` is the `mode == "test"` explicit override. -/
def build_context_days (testOverride : Option Int) (delivered_at : Option Int)
    (return_request_date : Option Int) (today : Int) : Int :=
  match testOverride with
  | some d => d
  | none =>
      match delivered_at, return_request_date with
      | some dd, some rr => rr - dd
      | some dd, none => today - dd
      | none, _ => 9999

/-- A rule head whose `days_allowed` is missing, null, or a string that
does not parse as an integer (the malformed cases of claim C10). -/
def daysAllowedMalformed (r : Rule) : Prop :=
  r.days_allowed = none ∨ r.days_allowed = some .jnull ∨
    ∃ s, r.days_allowed = some (.jstr s) ∧ parseIntPy s = none

/-- Claim C10: `make_decision` is a deterministic total function (it is a
pure Lean function of its two arguments, with no effects); for every input
the returned decision is exactly one of APPROVED, DENIED, MANUAL_REVIEW;
and a leading rule with missing, null, or non-integer `days_allowed`
yields MANUAL_REVIEW rather than an exception. -/
theorem c10_decision_total (ctx : AdjContext) (rules : List Rule) :
    ((make_decision ctx rules).decision = "APPROVED" ∨
      (make_decision ctx rules).decision = "DENIED" ∨
      (make_decision ctx rules).decision = "MANUAL_REVIEW")
    ∧ (∀ r rest, rules = r :: rest → daysAllowedMalformed r →
        (make_decision ctx rules).decision = "MANUAL_REVIEW") := by
  constructor
  · rcases rules with _ | ⟨r, rest⟩
    · simp [make_decision]
    · simp only [make_decision]
      rcases hda : r.days_allowed with _ | v
      · simp
      · rcases v with _ | n | s
        · simp
        · simp only [pyToInt]
          split
          · simp
          · split
            · simp
            · simp
        · simp only [pyToInt]
          rcases hp : parseIntPy s with _ | d
          · simp
          · simp only
            split
            · simp
            · split
              · simp
              · simp
  · intro r rest hr hmal
    subst hr
    simp only [make_decision]
    rcases hmal with h | h | ⟨s, h, hp⟩
    · rw [h]
    · rw [h]
    · rw [h]
      simp [pyToInt, hp]

/-- Witness for C10: a concrete rule whose `days_allowed` is the
unparseable string "soon" routes to MANUAL_REVIEW. -/
theorem c10_witness :
    (make_decision ⟨12, "NEW_UNOPENED", "CHANGED_MIND"⟩
        [⟨some "R1", none, some (.jstr "soon"), none⟩]).decision =
      "MANUAL_REVIEW" :=
  (c10_decision_total ⟨12, "NEW_UNOPENED", "CHANGED_MIND"⟩
      [⟨some "R1", none, some (.jstr "soon"), none⟩]).2
    ⟨some "R1", none, some (.jstr "soon"), none⟩ [] rfl
    (Or.inr (Or.inr ⟨"soon", rfl, by decide⟩))

/-- Claim C6 counterexample: with the no-delivery-date sentinel
`days_since_delivery = 9999` and an ordinary 30-day rule in scope,
`make_decision` returns DENIED, not MANUAL_REVIEW. -/
theorem c6_counterexample :
    (⟨9999, "UNKNOWN", "CHANGED_MIND"⟩ : AdjContext).days_since_delivery = 9999
    ∧ (make_decision ⟨9999, "UNKNOWN", "CHANGED_MIND"⟩
        [⟨some "Standard Return Window", none, some (.jint 30), none⟩]).decision
      = "DENIED" := by
  constructor
  · rfl
  · decide

/-- Claim C6 as amended: when no delivery date is available (and no test
override is in force) `build_context` sets the sentinel 9999; a decision
at the sentinel routes to MANUAL_REVIEW when no rules were found or the
leading rule's window is malformed, but it is DENIED whenever the leading
rule carries an integer `days_allowed` below 9999. -/
theorem c6_amended (ctx : AdjContext) (rules : List Rule)
    (h9 : ctx.days_since_delivery = 9999) :
    (∀ rrd today, build_context_days none none rrd today = 9999)
    ∧ (rules = [] → (make_decision ctx rules).decision = "MANUAL_REVIEW")
    ∧ (∀ r rest, rules = r :: rest → daysAllowedMalformed r →
        (make_decision ctx rules).decision = "MANUAL_REVIEW")
    ∧ (∀ r rest d, rules = r :: rest → r.days_allowed = some (.jint d) →
        d < 9999 → (make_decision ctx rules).decision = "DENIED") := by
  refine ⟨fun rrd today => by cases rrd <;> rfl, ?_, ?_, ?_⟩
  · intro h; subst h; rfl
  · intro r rest hr hmal
    subst hr
    simp only [make_decision]
    rcases hmal with h | h | ⟨s, h, hp⟩
    · rw [h]
    · rw [h]
    · rw [h]
      simp [pyToInt, hp]
  · intro r rest d hr hda hd
    subst hr
    simp only [make_decision]
    rw [hda]
    simp only [pyToInt]
    have : ctx.days_since_delivery > d := by omega
    simp [this]

/-- Witness for C6 (amended): sentinel context against a 15-day rule is
DENIED. -/
theorem c6_witness :
    (make_decision ⟨9999, "DAMAGED_DEFECTIVE", "DEFECTIVE"⟩
        [⟨some "Fifteen Day Window", none, some (.jint 15), none⟩]).decision
      = "DENIED" :=
  (c6_amended ⟨9999, "DAMAGED_DEFECTIVE", "DEFECTIVE"⟩
      [⟨some "Fifteen Day Window", none, some (.jint 15), none⟩] rfl).2.2.2
    ⟨some "Fifteen Day Window", none, some (.jint 15), none⟩ [] 15 rfl rfl
    (by decide)

/-! ## DB verification tools
(`db_verification/db_verification_server.py`).

The orders store is embedded as in-memory lists of typed rows; only the
columns read by the verification tools are carried.  `invoice_number` and
`order_invoice_id` are UNIQUE columns in the schema, so the SQL
`WHERE o.<field> = %s LIMIT 1` of `fetch_full_order_details` is faithfully
the first (only) matching row. -/

structure Customer where
  customer_id : String
  customer_email : String
  full_name : String
  phone : String
deriving Repr, DecidableEq

structure Order where
  order_id : String
  invoice_number : String
  order_invoice_id : String
  customer_id : String
deriving Repr, DecidableEq

structure OrderItem where
  order_item_id : String
  order_id : String
  sku : String
  item_name : String
deriving Repr, DecidableEq

structure OrdersDB where
  customers : List Customer
  orders : List Order
  order_items : List OrderItem
deriving Repr

/-- The package returned by `fetch_full_order_details`: the joined
customer, the order row, and the order's items (sorted by name in SQL;
the ordering is irrelevant to every claim). -/
structure OrderData where
  customer : Customer
  order_details : Order
  items : List OrderItem
deriving Repr, DecidableEq

/-- `fetch_full_order_details(conn, field_name, value)`: the first order
whose selected unique column equals `value`, inner-joined with its
customer, plus its items. -/
def fetch_full_order_details (db : OrdersDB) (field : Order → String)
    (value : String) : Option OrderData :=
  match db.orders.find? (fun o => field o == value) with
  | none => none
  | some o =>
      match db.customers.find? (fun c => c.customer_id == o.customer_id) with
      | none => none
      | some c =>
          some ⟨c, o, db.order_items.filter (fun it => it.order_id == o.order_id)⟩

/-- Result dict of `find_order_by_order_invoice_id`: keys
`order_invoice_id`, `found`, `data`, and the optional `error` string. -/
structure FindOrderResult where
  order_invoice_id : String
  found : Bool
  data : Option OrderData
  error : Option String
deriving Repr, DecidableEq

/-- `find_order_by_order_invoice_id(order_invoice_id, verification_email)`
(db_verification_server.py lines 218-255).  When the order is found and a
truthy verification email is supplied, the customer email is cross-checked
case-insensitively (both sides stripped and lowered); a mismatch returns
the fraud-alert style error with `found = False` and no data. -/
def find_order_by_order_invoice_id (db : OrdersDB)
    (order_invoice_id verification_email : String) : FindOrderResult :=
  if pyStripL order_invoice_id.data = [] then
    ⟨order_invoice_id, false, none, some "order_invoice_id is required"⟩
  else
    let oid := String.mk (pyStripL order_invoice_id.data)
    let data := fetch_full_order_details db (fun o => o.order_invoice_id) oid
    match data with
    | some d =>
        if verification_email ≠ "" then
          let db_email := pyLowerL (pyStripL d.customer.customer_email.data)
          let verify_email := pyLowerL (pyStripL verification_email.data)
          if db_email ≠ verify_email then
            ⟨oid, false, none,
              some ("Validation Failed: Email verification mismatch. " ++
                "Order belongs to a different customer.")⟩
          else ⟨oid, true, some d, none⟩
        else ⟨oid, true, some d, none⟩
    | none => ⟨oid, false, none, none⟩

/-- Concrete store for the C5 scenario: INV-42 belongs to Alice. -/
def c5db : OrdersDB :=
  { customers := [⟨"c1", "alice@x.com", "Alice", "555-0100"⟩]
    orders := [⟨"o1", "IN-2024-42", "INV-42", "c1"⟩]
    order_items := [] }

/-- Claim C5 counterexample: Mallory claims Alice's order INV-42.  The
tool does refuse the data with the mismatch error, but it reports
`found = False`, not the `{found: true, verification_passed: false}` shape
the claim states (no `verification_passed` key exists at all). -/
theorem c5_counterexample :
    (find_order_by_order_invoice_id c5db "INV-42" "mallory@x.com").found = false
    ∧ (find_order_by_order_invoice_id c5db "INV-42" "mallory@x.com").data = none
    ∧ (find_order_by_order_invoice_id c5db "INV-42" "mallory@x.com").error =
        some ("Validation Failed: Email verification mismatch. " ++
          "Order belongs to a different customer.") := by
  refine ⟨?_, ?_, ?_⟩ <;> decide

/-- Claim C5 as amended: whenever the order exists, a non-empty
verification email is supplied, and the customer email differs from it
after stripping and lowercasing, the tool withholds the order and returns
`{found: false, data: null}` with the email-verification-mismatch error. -/
theorem c5_amended (db : OrdersDB) (order_invoice_id verification_email : String)
    (hoid : pyStripL order_invoice_id.data ≠ [])
    (hve : verification_email ≠ "")
    (d : OrderData)
    (hfetch : fetch_full_order_details db (fun o => o.order_invoice_id)
        (String.mk (pyStripL order_invoice_id.data)) = some d)
    (hmismatch : pyLowerL (pyStripL d.customer.customer_email.data) ≠
        pyLowerL (pyStripL verification_email.data)) :
    find_order_by_order_invoice_id db order_invoice_id verification_email =
      ⟨String.mk (pyStripL order_invoice_id.data), false, none,
        some ("Validation Failed: Email verification mismatch. " ++
          "Order belongs to a different customer.")⟩ := by
  unfold find_order_by_order_invoice_id
  rw [if_neg hoid]
  simp only [hfetch, if_pos hve, if_pos hmismatch]

/-- Witness for C5 (amended): the Mallory-vs-Alice scenario instantiates
every hypothesis of the amended theorem. -/
theorem c5_witness :
    find_order_by_order_invoice_id c5db "INV-42" "mallory@x.com" =
      ⟨"INV-42", false, none,
        some ("Validation Failed: Email verification mismatch. " ++
          "Order belongs to a different customer.")⟩ :=
  c5_amended c5db "INV-42" "mallory@x.com" (by decide) (by decide)
    ⟨⟨"c1", "alice@x.com", "Alice", "555-0100"⟩,
      ⟨"o1", "IN-2024-42", "INV-42", "c1"⟩, []⟩
    (by decide) (by decide)

/-! ## Refund case persistence
(`mcp_processor/processor.py`, `MCPProcessor.insert_refund_case` and the
post-verification branch of `MCPProcessor.process_single_email`).

The case envelope JSON loaded from the blob store is `EmailData`; the
fields are exactly the keys `insert_refund_case` reads.  A Python dict
value that is falsy where the code tests truthiness (`None`, `""`, `{}`)
is modelled by `none`, as explained on each field. -/

/-- Timestamps are carried as their `"%Y%m%dT%H%M%SZ"` rendering (see the
file header), so `strftime` is the identity on this representation. -/
abbrev Timestamp := String

/-- Envelope metadata consumed by `insert_refund_case`.  `received_at` is
`none` when the key is absent (the code then substitutes `now`);
`message_id` is the optional upstream id consulted first when deriving
`source_message_id`. -/
structure EmailData where
  user_id : String
  received_at : Option Timestamp
  category : String
  email_body : String
  message_id : Option String
deriving Repr

/-- The slice of the extraction output read by `insert_refund_case`. -/
structure ExtractedData where
  full_name : Option String
  invoice_number : Option String
  order_invoice_id : Option String
  return_reason_category : Option String
  return_reason : Option String
  item_condition : Option String
deriving Repr

/-- Nested `data.customer` section of a verified record. -/
structure VRCustomer where
  customer_id : Option String
deriving Repr

/-- Nested `data.order_details` section of a verified record. -/
structure VROrderDetails where
  order_id : Option String
deriving Repr

/-- Nested `data` section of a verified record; `none` on either field
models a missing or empty sub-dict. -/
structure VRData where
  customer : Option VRCustomer
  order_details : Option VROrderDetails
deriving Repr

/-- A truthy `verified_record` dict.  A falsy one (`None` or `{}`) is
modelled as `Option.none` at every use site, matching the uniform
`if verified_record:` truthiness tests in the code. -/
structure VerifiedRecord where
  data : Option VRData
  customer_id : Option String
  order_id : Option String
deriving Repr

/-- `adjudication_result.get("details", {})`. -/
structure AdjDetails where
  reason : String
deriving Repr, DecidableEq

/-- A truthy adjudication result dict (falsy = `none` at use sites). -/
structure AdjResult where
  decision : String
  details : AdjDetails
deriving Repr, DecidableEq

/-- The `metadata` JSONB column assembled by `insert_refund_case`; the
`adjudication` key is present exactly when a truthy adjudication result
was passed in. -/
structure CaseMetadata where
  extraction_confidence : Option String
  return_reason_category : Option String
  return_reason : Option String
  item_condition : Option String
  adjudication : Option AdjResult
deriving Repr

/-- A `refund_cases` row, restricted to the columns the claims are about
plus those needed to state the upsert faithfully. -/
structure RefundCaseRow where
  case_id : String
  case_source : String
  source_message_id : String
  from_email : String
  from_name : Option String
  classification : String
  customer_id : Option String
  order_id : Option String
  extracted_invoice_number : Option String
  extracted_order_invoice_id : Option String
  verification_status : String
  verification_notes : Option String
  metadata : CaseMetadata
  updated_at : Timestamp
deriving Repr

/-- The `source_message_id` computation of `insert_refund_case` (processor.py
line 130): the envelope's `message_id` when truthy, otherwise
`f"{from_email}_{received_at:%Y%m%dT%H%M%SZ}_{case_id[:8]}"` where
`case_id` is the fresh `uuid.uuid4()` of this run. -/
def source_message_id_of (email : EmailData) (caseId : String)
    (now : Timestamp) : String :=
  let from_email := email.user_id
  let received_at : Timestamp := email.received_at.getD now
  let fallback :=
    from_email ++ "_" ++ received_at ++ "_" ++ String.mk (caseId.data.take 8)
  match email.message_id with
  | some m => if m = "" then fallback else m
  | none => fallback

/-- Truthy-or chain used for `customer_id` / `order_id` extraction:
keep the first value, fall back to the second when the first is falsy. -/
def pyOrOpt (a b : Option String) : Option String :=
  if optTruthy a then a else b

/-- Row construction of `insert_refund_case` (processor.py lines 114-214).
`caseId` is the fresh `uuid.uuid4()` string and `now` the wall-clock
timestamp; both are explicit inputs of the embedding because the Python
function draws them from the environment. -/
def insert_refund_case_row (caseId : String) (now : Timestamp)
    (email : EmailData) (extracted : ExtractedData)
    (verified : Option VerifiedRecord) (adjudication : Option AdjResult) :
    RefundCaseRow :=
  let from_email := email.user_id
  let smid := source_message_id_of email caseId now
  let nested : Option String × Option String :=
    match verified with
    | none => (none, none)
    | some vr =>
        match vr.data with
        | none => (pyOrOpt none vr.customer_id, pyOrOpt none vr.order_id)
        | some ds =>
            (pyOrOpt ((ds.customer.getD ⟨none⟩).customer_id) vr.customer_id,
              pyOrOpt ((ds.order_details.getD ⟨none⟩).order_id) vr.order_id)
  let verification_status :=
    match verified with
    | some _ => "VERIFIED"
    | none => "PENDING_REVIEW"
  let verification_notes :=
    match adjudication with
    | some adj => some ("Decision: " ++ adj.decision ++ ". " ++ adj.details.reason)
    | none => none
  { case_id := caseId
    case_source := "EMAIL"
    source_message_id := smid
    from_email := from_email
    from_name := extracted.full_name
    classification := email.category
    customer_id := nested.1
    order_id := nested.2
    extracted_invoice_number := extracted.invoice_number
    extracted_order_invoice_id := extracted.order_invoice_id
    verification_status := verification_status
    verification_notes := verification_notes
    metadata :=
      { extraction_confidence := none
        return_reason_category := extracted.return_reason_category
        return_reason := extracted.return_reason
        item_condition := extracted.item_condition
        adjudication := adjudication }
    updated_at := now }

/-- Semantics of the `INSERT ... ON CONFLICT (source_message_id) DO UPDATE
SET customer_id, order_id, verification_status, verification_notes,
metadata, updated_at = EXCLUDED...` statement (processor.py lines
175-203) on a table with the UNIQUE `source_message_id` constraint: if a
row with the same `source_message_id` exists, overwrite exactly the six
listed columns with the incoming values; otherwise append the new row.
There is no `WHERE` clause on the conflict branch. -/
def upsert_refund_case (table : List RefundCaseRow) (row : RefundCaseRow) :
    List RefundCaseRow :=
  if table.any (fun r => r.source_message_id == row.source_message_id) then
    table.map (fun r =>
      if r.source_message_id == row.source_message_id then
        { r with
          customer_id := row.customer_id
          order_id := row.order_id
          verification_status := row.verification_status
          verification_notes := row.verification_notes
          metadata := row.metadata
          updated_at := row.updated_at }
      else r)
  else table ++ [row]

/-- The post-verification persistence choice of `process_single_email`
(processor.py lines 724-784): with a truthy verified record and a
non-empty `fuzzy_tools_used` list, `insert_refund_case` is invoked with
the verified record and `adjudication_result=None`; with an empty fuzzy
list the adjudication result is attached; with no verified record both
are `None`.  The returned pair is the `(verified_record,
adjudication_result)` argument pair passed to `insert_refund_case`. -/
def process_single_email_insert_args (verified : Option VerifiedRecord)
    (fuzzy_tools_used : List String) (adjudication : Option AdjResult) :
    Option VerifiedRecord × Option AdjResult :=
  match verified with
  | some vr => if fuzzy_tools_used.isEmpty then (some vr, adjudication)
      else (some vr, none)
  | none => (none, none)

/-- Fuzzy-match scenario inputs for claim C1: a RETURN envelope whose
order was located via `select_order_id`. -/
def c1email : EmailData :=
  ⟨"alice@x.com", some "20250105T120000Z", "RETURN",
    "I want to return the blue chair from last week", none⟩

def c1extracted : ExtractedData :=
  ⟨some "Alice", none, none, some "CHANGED_MIND",
    some "changed my mind", some "OPENED_LIKE_NEW"⟩

def c1verified : VerifiedRecord :=
  ⟨some ⟨some ⟨some "c1"⟩, some ⟨some "o1"⟩⟩, none, none⟩

/-- Claim C1, evaluated at the failing input: with a verified order and
`fuzzy_tools_used = ["select_order_id"]`, the case worker persists the row
with `verification_status = "VERIFIED"` (because `insert_refund_case`
derives the status solely from the presence of a truthy verified record),
while the adjudication metadata and notes are indeed null.  The spec (and
the code's own comment at the call site, "Insert refund case with pending
human review status") require PENDING_REVIEW here. -/
theorem c1_code_behavior :
    (insert_refund_case_row "aaaa1111-2222-3333" "20250106T000000Z" c1email
        c1extracted
        (process_single_email_insert_args (some c1verified)
          ["select_order_id"] none).1
        (process_single_email_insert_args (some c1verified)
          ["select_order_id"] none).2).verification_status = "VERIFIED"
    ∧ (insert_refund_case_row "aaaa1111-2222-3333" "20250106T000000Z" c1email
        c1extracted
        (process_single_email_insert_args (some c1verified)
          ["select_order_id"] none).1
        (process_single_email_insert_args (some c1verified)
          ["select_order_id"] none).2).metadata.adjudication = none
    ∧ (insert_refund_case_row "aaaa1111-2222-3333" "20250106T000000Z" c1email
        c1extracted
        (process_single_email_insert_args (some c1verified)
          ["select_order_id"] none).1
        (process_single_email_insert_args (some c1verified)
          ["select_order_id"] none).2).verification_notes = none := by
  refine ⟨rfl, rfl, rfl⟩

/-- An existing VERIFIED `refund_cases` row for the C3 scenario. -/
def c3row_v : RefundCaseRow :=
  { case_id := "case-a"
    case_source := "EMAIL"
    source_message_id := "msg-1"
    from_email := "alice@x.com"
    from_name := none
    classification := "RETURN"
    customer_id := some "c1"
    order_id := some "o1"
    extracted_invoice_number := none
    extracted_order_invoice_id := none
    verification_status := "VERIFIED"
    verification_notes := none
    metadata := ⟨none, none, none, none, none⟩
    updated_at := "20250105T120000Z" }

/-- A re-processing of the same message that found no verified order. -/
def c3row_p : RefundCaseRow :=
  { c3row_v with
    case_id := "case-b"
    customer_id := none
    order_id := none
    verification_status := "PENDING_REVIEW"
    updated_at := "20250107T080000Z" }

/-- Claim C3 counterexample: re-processing the same `source_message_id`
with a PENDING_REVIEW row overwrites an existing VERIFIED row; the
`ON CONFLICT ... DO UPDATE` has no `WHERE` clause on status and there is
no re-read-and-compare, so the status is downgraded. -/
theorem c3_counterexample :
    (upsert_refund_case [c3row_v] c3row_p).map
        (fun r => r.verification_status) = ["PENDING_REVIEW"] := by
  decide

/-- Claim C3 as amended: the upsert is last-writer-wins on
`verification_status`.  Whenever a row with the conflicting
`source_message_id` exists, the surviving row keeps its identity
(`case_id`) but carries the incoming `verification_status`
unconditionally, including the downgrade VERIFIED → PENDING_REVIEW. -/
theorem c3_amended (t : List RefundCaseRow) (row old : RefundCaseRow)
    (hmem : old ∈ t)
    (hid : old.source_message_id = row.source_message_id) :
    ∃ upd ∈ upsert_refund_case t row,
      upd.source_message_id = row.source_message_id ∧
      upd.verification_status = row.verification_status ∧
      upd.case_id = old.case_id := by
  have hb : (old.source_message_id == row.source_message_id) = true :=
    beq_iff_eq.mpr hid
  have hany : t.any
      (fun r => r.source_message_id == row.source_message_id) = true :=
    List.any_eq_true.mpr ⟨old, hmem, hb⟩
  unfold upsert_refund_case
  rw [if_pos hany]
  refine ⟨_, List.mem_map_of_mem _ hmem, ?_⟩
  simp only [hb, if_true]
  exact ⟨hid, trivial, trivial⟩

/-- Witness for C3 (amended): the concrete VERIFIED row is downgraded. -/
theorem c3_witness :
    ∃ upd ∈ upsert_refund_case [c3row_v] c3row_p,
      upd.source_message_id = c3row_p.source_message_id ∧
      upd.verification_status = c3row_p.verification_status ∧
      upd.case_id = c3row_v.case_id :=
  c3_amended [c3row_v] c3row_p c3row_v (List.mem_singleton_self _) rfl

/-- Envelope without an upstream `message_id`, as produced by the Gmail
event processor (its result dicts carry no `message_id` key). -/
def c4email : EmailData :=
  ⟨"alice@x.com", some "20250105T120000Z", "RETURN", "return please", none⟩

def c4extracted : ExtractedData := ⟨none, none, none, none, none, none⟩

/-- Claim C4 counterexample: for an envelope without a `message_id`, the
fallback `source_message_id` embeds the first 8 characters of the fresh
per-run `uuid.uuid4()`, so two processings of the same envelope compute
different ids and the upsert creates two rows for the same message. -/
theorem c4_counterexample :
    source_message_id_of c4email "aaaa1111-2222-3333" "20250106T000000Z" ≠
      source_message_id_of c4email "bbbb3333-4444-5555" "20250106T000000Z"
    ∧ (upsert_refund_case
        (upsert_refund_case []
          (insert_refund_case_row "aaaa1111-2222-3333" "20250106T000000Z"
            c4email c4extracted none none))
        (insert_refund_case_row "bbbb3333-4444-5555" "20250106T000000Z"
          c4email c4extracted none none)).length = 2 := by
  refine ⟨by decide, by decide⟩

/-- Claim C4 as amended: the computed `source_message_id` is deterministic
exactly when the envelope carries a truthy `message_id`; in that case it
is independent of the per-run `uuid.uuid4()` and wall clock, so replays
collide on the unique key and at most one row exists. -/
theorem c4_amended (email : EmailData) (m : String)
    (hm : email.message_id = some m) (hne : m ≠ "") :
    ∀ caseId caseId' now now',
      source_message_id_of email caseId now =
        source_message_id_of email caseId' now' := by
  intro caseId caseId' now now'
  unfold source_message_id_of
  rw [hm]
  simp [hne]

/-- Witness for C4 (amended): with `message_id = "gmail-msg-42"`, the id
is the same across two runs with different uuids and clocks. -/
theorem c4_witness :
    source_message_id_of
        ⟨"alice@x.com", some "20250105T120000Z", "RETURN", "b",
          some "gmail-msg-42"⟩ "aaaa1111" "20250106T000000Z" =
      source_message_id_of
        ⟨"alice@x.com", some "20250105T120000Z", "RETURN", "b",
          some "gmail-msg-42"⟩ "bbbb2222" "20250107T000000Z" :=
  c4_amended
    ⟨"alice@x.com", some "20250105T120000Z", "RETURN", "b",
      some "gmail-msg-42"⟩ "gmail-msg-42" rfl (by decide)
    "aaaa1111" "bbbb2222" "20250106T000000Z" "20250107T000000Z"

/-! ## LLM SQL runner
(`db_verification/llm_sql_runner.py`).

Parameter values carried alongside the generated SQL are embedded as
`PVal`.  Python `isinstance(x, int)` is the `pint` constructor (CPython
`bool` is a subclass of `int`; boolean parameters, which never occur
here, would also be `pint`). -/

inductive PVal
  | pint (n : Int)
  | pstr (s : String)
  | pnone
deriving DecidableEq, Repr

/-- The `email_info` fields consulted by `_desired_limit`; the remaining
search-hint keys never influence control flow in the runner. -/
structure EmailInfo where
  invoice_number : Option String
  order_invoice_id : Option String
deriving Repr

/-- `_desired_limit` (llm_sql_runner.py lines 183-191): shortlist size 1
when a strong identifier is present (Python truthiness on the two keys),
otherwise `min(5, max_limit)`. -/
def _desired_limit (info : EmailInfo) (max_limit : Int) : Int :=
  if optTruthy info.invoice_number || optTruthy info.order_invoice_id then 1
  else min 5 max_limit

/-- `ALLOWED_TABLES` (llm_sql_runner.py line 119). -/
def ALLOWED_TABLES : List String :=
  ["customers", "orders", "order_items", "refund_cases"]

/-- `FORBIDDEN_SQL_SUBSTRINGS` (llm_sql_runner.py lines 121-146), in
source order. -/
def FORBIDDEN_SQL_SUBSTRINGS : List String :=
  [";", "--", "/*", "*/",
   "insert ", "update ", "delete ", "drop ", "alter ", "create ",
   "grant ", "revoke ", "truncate ", "copy ", "call ", "do ", "execute ",
   "pg_catalog", "information_schema",
   " with ", " union "]

/-- `_normalize_sql` followed by `.lower()`: the `sql_lc` value of
`validate_sql_readonly`. -/
def sqlNormLC (sql : String) : List Char :=
  pyLowerL (pyNormalizeL sql.data)

/-- The `padded = f" {sql_lc} "` value of `validate_sql_readonly`. -/
def sqlPadded (sql : String) : List Char :=
  ' ' :: (sqlNormLC sql ++ [' '])

/-- The token set of `validate_sql_readonly`:
`{t.strip(",()") for t in sql_lc.replace("\n", " ").split()}` (after
normalisation `sql_lc` contains no newline, so the replace is the
identity; the Python set only feeds an emptiness test, so the list of
stripped tokens is an equivalent carrier). -/
def sqlTokens (sql : String) : List (List Char) :=
  (pyWords (sqlNormLC sql)).map (pyStripChars [',', '(', ')'])

/-- `validate_sql_readonly` (llm_sql_runner.py lines 206-253), check for
check in source order; `.error` is the raised `SQLValidationError`. -/
def validate_sql_readonly (sql : String) (params : List PVal)
    (max_limit : Int) : Except String Unit :=
  if pyStripL sql.data = [] then .error "Empty SQL"
  else if !startsL "select ".data (sqlNormLC sql) then
    .error "Only SELECT queries are allowed"
  else if !endsL " limit %s".data (sqlNormLC sql) then
    .error "SQL must end with: LIMIT %s"
  else
    match FORBIDDEN_SQL_SUBSTRINGS.find?
        (fun bad => occursIn bad.data (sqlPadded sql)) with
    | some bad =>
        .error ("Forbidden SQL content detected: " ++
          String.mk (pyStripL bad.data))
    | none =>
        if !((sqlTokens sql).any
            (fun t => ALLOWED_TABLES.any (fun a => a.data == t))) then
          .error ("Query must explicitly reference allowed tables " ++
            "(customers/orders/order_items/refund_cases)")
        else if countOcc "%s".data (pyNormalizeL sql.data) ≠ params.length then
          .error "Placeholder count mismatch"
        else
          match params.getLast? with
          | none => .error "Params must include final LIMIT"
          | some (.pint n) =>
              if n > max_limit then .error "LIMIT param too high" else .ok ()
          | some _ => .error "Final LIMIT param must be an int"

/-- The `LLMQuery` dataclass: generated SQL, parameter list, rationale.
The same shape carries the parsed Gemini JSON object (`sql`, `params`,
`rationale` keys) fed into the override step. -/
structure LLMQuery where
  sql : String
  params : List PVal
  rationale : String
deriving Repr

/-- `generate_sql_with_gemini` (llm_sql_runner.py lines 379-424) from the
parsed model output onward: reject a blank `sql`, then override the
trailing LIMIT parameter with the deterministic `_desired_limit` (the
whole `params` list when it was empty, its last element otherwise). -/
def generate_sql_with_gemini (raw : LLMQuery) (info : EmailInfo)
    (max_limit : Int) : Except String LLMQuery :=
  if pyStripL raw.sql.data = [] then .error "Gemini response missing sql"
  else
    let desired := _desired_limit info max_limit
    let params :=
      if raw.params.isEmpty then [PVal.pint desired]
      else raw.params.dropLast ++ [PVal.pint desired]
    .ok ⟨raw.sql, params, raw.rationale⟩

/-- The success payload of `llm_generate_and_execute`: the SQL that ran,
its parameters, the rationale, and the fetched rows. -/
structure ExecResult where
  sql : String
  params : List PVal
  rationale : String
  rows : List (List (String × PVal))
deriving Repr

/-- `llm_generate_and_execute` (llm_sql_runner.py lines 466-501):
generate, validate, and only then execute.  The database is abstracted as
the row-fetching function `execF` (`execute_readonly_query`); a
validation failure raises (returns `.error`) before `execF` is ever
consulted. -/
def llm_generate_and_execute (raw : LLMQuery) (info : EmailInfo)
    (max_limit : Int)
    (execF : String → List PVal → List (List (String × PVal))) :
    Except String ExecResult :=
  match generate_sql_with_gemini raw info max_limit with
  | .error e => .error e
  | .ok q =>
      match validate_sql_readonly q.sql q.params max_limit with
      | .error e => .error e
      | .ok _ => .ok ⟨q.sql, q.params, q.rationale, execF q.sql q.params⟩

/-- Claim C8: the shortlist size actually executed is deterministic.  For
every successful generation the trailing LIMIT parameter equals 1 when
the extracted intent carries a strong identifier (`invoice_number` or
`order_invoice_id`), and `min(5, max_limit)` otherwise, regardless of the
parameter list the model produced. -/
theorem c8_limit_override (raw : LLMQuery) (info : EmailInfo) (lim : Int)
    (q : LLMQuery)
    (h : generate_sql_with_gemini raw info lim = .ok q) :
    q.params.getLast? =
      some (PVal.pint
        (if optTruthy info.invoice_number || optTruthy info.order_invoice_id
          then 1 else min 5 lim)) := by
  unfold generate_sql_with_gemini at h
  split at h
  · cases h
  · cases h
    by_cases hp : raw.params.isEmpty
    · simp [hp, _desired_limit]
    · simp [hp, List.getLast?_concat, _desired_limit]

/-- Witness for C8: a strong identifier forces the executed LIMIT to 1
even though the model asked for 50. -/
theorem c8_witness :
    ∃ q, generate_sql_with_gemini
        ⟨"SELECT o.order_id FROM orders LIMIT %s", [PVal.pint 50], ""⟩
        ⟨some "INV-9", none⟩ 200 = .ok q ∧
      q.params.getLast? = some (PVal.pint 1) := by
  refine ⟨_, rfl, ?_⟩
  exact c8_limit_override
    ⟨"SELECT o.order_id FROM orders LIMIT %s", [PVal.pint 50], ""⟩
    ⟨some "INV-9", none⟩ 200 _ rfl

/-- The table names a SELECT statement references, following the spec
words of §4.P.1 ("must reference only the allow-listed tables"): the
token immediately after each FROM or JOIN keyword of the normalised,
lowercased statement, with commas and parentheses stripped.  This is the
spec-side reading, kept separate from the validator's own token check for
comparison. -/
def spec_referenced_tables (sql : String) : List (List Char) :=
  let ws := sqlTokens sql
  (ws.zip ws.tail).filterMap
    (fun p => if p.1 = "from".data ∨ p.1 = "join".data then some p.2 else none)

/-- Spec-side check: every referenced table is allow-listed. -/
def spec_references_only_allowed (sql : String) : Bool :=
  (spec_referenced_tables sql).all
    (fun t => ALLOWED_TABLES.any (fun a => a.data == t))

def c2sql : String := "SELECT o.order_id FROM evil_table, customers LIMIT %s"

/-- Claim C2 counterexample: a generated SELECT drawing on the
non-allow-listed table `evil_table` passes `validate_sql_readonly`
(the code only requires that *some* token is an allow-listed table name -
here `customers` - not that *only* allow-listed tables are referenced),
so `llm_generate_and_execute` runs it even though it violates the
"reference only the allow-listed tables" check of §4.P.1. -/
theorem c2_counterexample :
    llm_generate_and_execute ⟨c2sql, [PVal.pint 50], "step 3"⟩ ⟨none, none⟩
        200 (fun _ _ => []) =
      .ok ⟨c2sql, [PVal.pint 5], "step 3", []⟩
    ∧ spec_references_only_allowed c2sql = false := by
  exact ⟨rfl, by decide⟩

theorem pyWords_cons (a : Char) (t : List Char) :
    pyWords (a :: t) =
      (wordsAux a (t.foldr wordsAux [])).filter (fun w => !w.isEmpty) := rfl

theorem wordsAux_pos_nil {a : Char} (ha : a.isWhitespace = false) :
    wordsAux a [] = [[a]] := by
  simp [wordsAux, ha]

theorem wordsAux_pos_cons {a : Char} (ha : a.isWhitespace = false)
    (w : List Char) (ws : List (List Char)) :
    wordsAux a (w :: ws) = (a :: w) :: ws := by
  simp [wordsAux, ha]

theorem wordsAux_ws {a : Char} (ha : a.isWhitespace = true)
    (acc : List (List Char)) : wordsAux a acc = [] :: acc := by
  simp [wordsAux, ha]

theorem exists_word_of_mem {c : Char} (hc : c.isWhitespace = false) :
    ∀ {l : List Char}, c ∈ l → ∃ w ∈ pyWords l, c ∈ w := by
  intro l hm
  induction l with
  | nil => cases hm
  | cons a t ih =>
      rw [pyWords_cons]
      rcases List.mem_cons.mp hm with rfl | hmt
      · cases hFt : t.foldr wordsAux [] with
        | nil =>
            rw [wordsAux_pos_nil hc]
            exact ⟨[c], by simp, by simp⟩
        | cons w0 rest =>
            rw [wordsAux_pos_cons hc]
            exact ⟨c :: w0, by simp, by simp⟩
      · obtain ⟨w, hw, hcw⟩ := ih hmt
        unfold pyWords at hw
        have hw' := List.mem_filter.mp hw
        by_cases ha : a.isWhitespace = true
        · rw [wordsAux_ws ha]
          exact ⟨w, List.mem_filter.mpr
            ⟨List.mem_cons_of_mem _ hw'.1, hw'.2⟩, hcw⟩
        · rw [Bool.not_eq_true] at ha
          cases hFt : t.foldr wordsAux [] with
          | nil =>
              rw [hFt] at hw'
              cases hw'.1
          | cons w0 rest =>
              rw [hFt] at hw'
              rw [wordsAux_pos_cons ha]
              rcases List.mem_cons.mp hw'.1 with rfl | hwr
              · refine ⟨a :: w, List.mem_filter.mpr ⟨by simp, by simp⟩,
                  List.mem_cons_of_mem _ hcw⟩
              · exact ⟨w, List.mem_filter.mpr
                  ⟨List.mem_cons_of_mem _ hwr, hw'.2⟩, hcw⟩

theorem mem_joinSpace {c : Char} :
    ∀ {ws : List (List Char)} {w : List Char}, w ∈ ws → c ∈ w →
      c ∈ joinSpace ws := by
  intro ws
  induction ws with
  | nil => intro w hw; cases hw
  | cons w0 rest ih =>
      intro w hw hcw
      rcases List.mem_cons.mp hw with rfl | hwr
      · cases rest with
        | nil => exact hcw
        | cons r rs =>
            show c ∈ w ++ ' ' :: joinSpace (r :: rs)
            exact List.mem_append_left _ hcw
      · cases rest with
        | nil => cases hwr
        | cons r rs =>
            show c ∈ w0 ++ ' ' :: joinSpace (r :: rs)
            refine List.mem_append_right _ ?_
            exact List.mem_cons_of_mem _ (ih hwr hcw)

theorem mem_pyNormalizeL {c : Char} {l : List Char}
    (hc : c.isWhitespace = false) (hm : c ∈ l) : c ∈ pyNormalizeL l := by
  obtain ⟨w, hw, hcw⟩ := exists_word_of_mem hc hm
  exact mem_joinSpace hw hcw

theorem occursIn_of_mem {c : Char} :
    ∀ {l : List Char}, c ∈ l → occursIn [c] l = true := by
  intro l hm
  induction l with
  | nil => cases hm
  | cons a t ih =>
      rcases List.mem_cons.mp hm with rfl | hmt
      · simp [occursIn, startsL]
      · simp [occursIn, ih hmt]

/-- Every fact enforced by a successful `validate_sql_readonly` run. -/
theorem validate_ok_facts (sql : String) (params : List PVal) (lim : Int)
    (h : validate_sql_readonly sql params lim = .ok ()) :
    startsL "select ".data (sqlNormLC sql) = true ∧
    endsL " limit %s".data (sqlNormLC sql) = true ∧
    (∀ bad ∈ FORBIDDEN_SQL_SUBSTRINGS,
        occursIn bad.data (sqlPadded sql) = false) ∧
    (sqlTokens sql).any
        (fun t => ALLOWED_TABLES.any (fun a => a.data == t)) = true ∧
    countOcc "%s".data (pyNormalizeL sql.data) = params.length ∧
    ∃ n, params.getLast? = some (PVal.pint n) ∧ n ≤ lim := by
  unfold validate_sql_readonly at h
  by_cases h1 : pyStripL sql.data = []
  · rw [if_pos h1] at h; exact absurd h (by simp)
  rw [if_neg h1] at h
  by_cases h2 : (!startsL "select ".data (sqlNormLC sql)) = true
  · rw [if_pos h2] at h; exact absurd h (by simp)
  rw [if_neg h2] at h
  simp only [Bool.not_eq_true', Bool.not_eq_false] at h2
  by_cases h3 : (!endsL " limit %s".data (sqlNormLC sql)) = true
  · rw [if_pos h3] at h; exact absurd h (by simp)
  rw [if_neg h3] at h
  simp only [Bool.not_eq_true', Bool.not_eq_false] at h3
  rcases hf : FORBIDDEN_SQL_SUBSTRINGS.find?
      (fun bad => occursIn bad.data (sqlPadded sql)) with _ | bad
  swap
  · rw [hf] at h; exact absurd h (by simp)
  rw [hf] at h
  simp only at h
  have hforb : ∀ bad ∈ FORBIDDEN_SQL_SUBSTRINGS,
      occursIn bad.data (sqlPadded sql) = false := by
    intro bad hb
    simpa using List.find?_eq_none.mp hf bad hb
  by_cases h4 : (!((sqlTokens sql).any
      (fun t => ALLOWED_TABLES.any (fun a => a.data == t)))) = true
  · rw [if_pos h4] at h; exact absurd h (by simp)
  rw [if_neg h4] at h
  simp only [Bool.not_eq_true', Bool.not_eq_false] at h4
  by_cases h5 : countOcc "%s".data (pyNormalizeL sql.data) ≠ params.length
  · rw [if_pos h5] at h; exact absurd h (by simp)
  rw [if_neg h5] at h
  rw [not_ne_iff] at h5
  rcases hg : params.getLast? with _ | p
  · rw [hg] at h; exact absurd h (by simp)
  rw [hg] at h
  cases p with
  | pint n =>
      simp only at h
      by_cases h6 : n > lim
      · rw [if_pos h6] at h; exact absurd h (by simp)
      exact ⟨h2, h3, hforb, h4, h5, n, rfl, by omega⟩
  | pstr s => exact absurd h (by simp)
  | pnone => exact absurd h (by simp)

/-- A successful validation implies the raw SQL text contains no
semicolon at all (normalisation only collapses whitespace, so a semicolon
in the raw text would survive into the padded lowercased text and trip
the forbidden-substring check). -/
theorem validate_ok_no_semicolon (sql : String) (params : List PVal)
    (lim : Int) (h : validate_sql_readonly sql params lim = .ok ()) :
    ';' ∉ sql.data := by
  intro hmem
  have h1 : Char.toLower ';' ∈ sqlNormLC sql := by
    unfold sqlNormLC pyLowerL
    exact List.mem_map_of_mem _ (mem_pyNormalizeL (by decide) hmem)
  have h2 : ';' ∈ sqlPadded sql := by
    unfold sqlPadded
    exact List.mem_cons_of_mem _ (List.mem_append_left _ h1)
  have h3 : occursIn ";".data (sqlPadded sql) = true := occursIn_of_mem h2
  have h4 := (validate_ok_facts sql params lim h).2.2.1 ";"
    (List.mem_cons_self _ _)
  rw [h3] at h4
  cases h4

/-- Claim C2 as amended: for every `llm_find_orders` execution, the SQL
is validated before `execute` (a successful result presupposes
`validate_sql_readonly = ok`), and the executed text satisfies all the
§4.P.1 checks except table exclusivity: it starts with SELECT, ends with
the token sequence LIMIT %s, contains no semicolon (raw text) and none of
the forbidden substrings (comments, DDL/DML keywords with trailing space,
pg_catalog, information_schema, bare UNION, bare WITH), references AT
LEAST ONE allow-listed table (not: only allow-listed tables), has a
placeholder count equal to the parameter list length, and ends with an
integer parameter at most `max_limit`. -/
theorem c2_amended (raw : LLMQuery) (info : EmailInfo) (lim : Int)
    (execF : String → List PVal → List (List (String × PVal)))
    (r : ExecResult)
    (h : llm_generate_and_execute raw info lim execF = .ok r) :
    validate_sql_readonly r.sql r.params lim = .ok () ∧
    startsL "select ".data (sqlNormLC r.sql) = true ∧
    endsL " limit %s".data (sqlNormLC r.sql) = true ∧
    (∀ bad ∈ FORBIDDEN_SQL_SUBSTRINGS,
        occursIn bad.data (sqlPadded r.sql) = false) ∧
    ';' ∉ r.sql.data ∧
    (sqlTokens r.sql).any
        (fun t => ALLOWED_TABLES.any (fun a => a.data == t)) = true ∧
    countOcc "%s".data (pyNormalizeL r.sql.data) = r.params.length ∧
    ∃ n, r.params.getLast? = some (PVal.pint n) ∧ n ≤ lim := by
  unfold llm_generate_and_execute at h
  rcases hg : generate_sql_with_gemini raw info lim with e | q
  · rw [hg] at h; exact absurd h (by simp)
  rw [hg] at h
  simp only at h
  rcases hv : validate_sql_readonly q.sql q.params lim with e | u
  · rw [hv] at h; exact absurd h (by simp)
  rw [hv] at h
  simp only at h
  cases u
  cases h
  have facts := validate_ok_facts q.sql q.params lim hv
  have hsemi := validate_ok_no_semicolon q.sql q.params lim hv
  exact ⟨hv, facts.1, facts.2.1, facts.2.2.1, hsemi, facts.2.2.2.1,
    facts.2.2.2.2.1, facts.2.2.2.2.2⟩

/-- Witness for C2 (amended): a well-formed single-table query executes,
validation having passed, and its raw text has no semicolon. -/
theorem c2_witness :
    llm_generate_and_execute
        ⟨"SELECT o.order_id FROM orders LIMIT %s", [], "ok"⟩ ⟨none, none⟩
        200 (fun _ _ => []) =
      .ok ⟨"SELECT o.order_id FROM orders LIMIT %s", [PVal.pint 5], "ok", []⟩
    ∧ ';' ∉ "SELECT o.order_id FROM orders LIMIT %s".data :=
  ⟨rfl,
    (c2_amended ⟨"SELECT o.order_id FROM orders LIMIT %s", [], "ok"⟩
      ⟨none, none⟩ 200 (fun _ _ => [])
      ⟨"SELECT o.order_id FROM orders LIMIT %s", [PVal.pint 5], "ok", []⟩
      rfl).2.2.2.2.1⟩

/-! ## Citation manager and citation resolver
(`policy_compiler_agents/tools.py`, `CitationManager.find_text_citation`;
`policy_compiler_agents/source_retrieval.py`, `parse_citation`).

`parse_citation` applies the anchored regular expression
`^(.+\.pdf):page(\d+):line(\d+)$` with IGNORECASE.  Because the
expression is anchored and the trailing `\d+$` sits right after the
literal `:line` (whose last character is not a digit), the final digit
group is exactly the maximal all-digit suffix, the middle digit group the
maximal digit run before `:line`, and group 1 everything before `:page`;
group 1 must end in `.pdf` case-insensitively, contain at least one
character before that suffix, and - since `.` does not match a newline -
contain no newline.  The embedding below scans from the right
accordingly.  (The Python `$` would also match just before one trailing
newline; no citation built by this code base carries one, and that corner
is not modelled.) -/

/-- Decimal digit rendering of a natural number, exactly the digits an
f-string interpolation of a Python int produces. -/
def natDigits (n : Nat) : List Char :=
  if _h : n < 10 then [Char.ofNat (48 + n)]
  else natDigits (n / 10) ++ [Char.ofNat (48 + n % 10)]
decreasing_by exact Nat.div_lt_self (by omega) (by omega)

def natStr (n : Nat) : String := String.mk (natDigits n)

/-- Decimal value of a digit string (used for the regex group `int(...)`
conversions). -/
def digitsToNat (l : List Char) : Nat :=
  l.foldl (fun a c => a * 10 + (c.toNat - 48)) 0

/-- One entry of `combined_policy_index.json`. -/
structure PageEntry where
  filename : String
  page : Nat
  start_line : Nat
  end_line : Nat
deriving Repr, DecidableEq

/-- The `CitationManager` state: the combined policy markdown as lines
plus the page index. -/
structure CitationMgr where
  lines : List String
  pages : List PageEntry
deriving Repr

/-- `CitationManager.get_page_for_line`: the first index page whose line
span contains the line. -/
def get_page_for_line (mgr : CitationMgr) (n : Nat) : Option PageEntry :=
  mgr.pages.find? (fun p => decide (p.start_line ≤ n ∧ n ≤ p.end_line))

/-- The citation string built on a successful text match:
`f"{page['filename']}:page{page['page']}:line{i}"`. -/
def mkCitation (p : PageEntry) (i : Nat) : String :=
  p.filename ++ ":page" ++ natStr p.page ++ ":line" ++ natStr i

/-- The common scan of the three search strategies: walk the markdown
lines with 1-based index; on a line containing the needle, return the
containing page and index if the index file knows the line, else keep
scanning (the Python loop `continue`s when `get_page_for_line` is None). -/
def find_line_with (pages : List PageEntry) (needle : List Char) :
    List String → Nat → Option (PageEntry × Nat)
  | [], _ => none
  | ln :: rest, i =>
      if occursIn needle (pyLowerL ln.data) then
        match pages.find?
            (fun p => decide (p.start_line ≤ i ∧ i ≤ p.end_line)) with
        | some p => some (p, i)
        | none => find_line_with pages needle rest (i + 1)
      else find_line_with pages needle rest (i + 1)

/-- `CitationManager._fallback_citation`: first page of the first file,
with the literal page number 1. -/
def _fallback_citation (mgr : CitationMgr) : String :=
  match mgr.pages with
  | [] => "unknown:page1"
  | first :: _ => first.filename ++ ":page1"

/-- `CitationManager.find_text_citation` (tools.py lines 191-254): short
or missing text falls back immediately; otherwise the stripped lowered
excerpt, its first 50 characters, and the phrase of its first five words
are searched in order; the first located line yields a precise citation,
otherwise the fallback. -/
def find_text_citation (mgr : CitationMgr) (text : String) : String :=
  if text.data.length < 5 then _fallback_citation mgr
  else
    let search_text := pyLowerL (pyStripL text.data)
    match find_line_with mgr.pages search_text mgr.lines 1 with
    | some (p, i) => mkCitation p i
    | none =>
        let short_text :=
          if 50 < search_text.length then search_text.take 50 else search_text
        match find_line_with mgr.pages short_text mgr.lines 1 with
        | some (p, i) => mkCitation p i
        | none =>
            let key_phrase := joinSpace ((pyWords search_text).take 5)
            match find_line_with mgr.pages key_phrase mgr.lines 1 with
            | some (p, i) => mkCitation p i
            | none => _fallback_citation mgr

/-- The parsed components of a citation (`parse_citation`'s result
dict). -/
structure ParsedCitation where
  filename : String
  page : Nat
  line : Nat
deriving Repr, DecidableEq

/-- The constraints the regex places on group 1 (`.+\.pdf`, IGNORECASE,
`.` excluding newline). -/
def fnameOkChars (fname : List Char) : Bool :=
  decide (5 ≤ fname.length) && endsL ".pdf".data (pyLowerL fname) &&
    fname.all (fun c => !(c == '\n'))

/-- `parse_citation` (source_retrieval.py lines 20-46); see the section
header for the regex reading this implements. -/
def parse_citation (s : String) : Option ParsedCitation :=
  let r := s.data.reverse
  let d2 := r.takeWhile Char.isDigit
  let r1 := r.dropWhile Char.isDigit
  if d2.isEmpty then none
  else if pyLowerL (r1.take 5) = "enil:".data then
    let r2 := r1.drop 5
    let d1 := r2.takeWhile Char.isDigit
    let r3 := r2.dropWhile Char.isDigit
    if d1.isEmpty then none
    else if pyLowerL (r3.take 5) = "egap:".data then
      let fname := (r3.drop 5).reverse
      if fnameOkChars fname then
        some ⟨String.mk fname, digitsToNat d1.reverse, digitsToNat d2.reverse⟩
      else none
    else none
  else none

/-- Concrete manager state for the C9 scenario. -/
def c9mgr : CitationMgr :=
  ⟨["Return policy overview for laptops"], [⟨"Bestbuytnc1.pdf", 1, 1, 1⟩]⟩

/-- Claim C9 counterexample: an excerpt that cannot be located falls back
to `"Bestbuytnc1.pdf:page1"`, which carries no `:line` component and is
rejected by `parse_citation` - the fallback citation is not parseable by
the adjudicator's resolver. -/
theorem c9_counterexample :
    find_text_citation c9mgr "a phrase that is definitely absent" =
      "Bestbuytnc1.pdf:page1"
    ∧ parse_citation "Bestbuytnc1.pdf:page1" = none := by
  exact ⟨rfl, rfl⟩

theorem charOfNat_digit {d : Nat} (hd : d < 10) :
    (Char.ofNat (48 + d)).isDigit = true := by
  interval_cases d <;> decide

theorem charOfNat_toNat {d : Nat} (hd : d < 10) :
    (Char.ofNat (48 + d)).toNat = 48 + d := by
  interval_cases d <;> decide

theorem natDigits_ne_nil (n : Nat) : natDigits n ≠ [] := by
  rw [natDigits]
  split
  · simp
  · simp

theorem natDigits_all_digit (n : Nat) :
    ∀ c ∈ natDigits n, c.isDigit = true := by
  induction n using Nat.strong_induction_on with
  | _ n ih =>
      rw [natDigits]
      split
      · next h =>
          intro c hc
          rw [List.mem_singleton] at hc
          subst hc
          exact charOfNat_digit h
      · next h =>
          intro c hc
          rcases List.mem_append.mp hc with h1 | h2
          · exact ih (n / 10) (Nat.div_lt_self (by omega) (by omega)) c h1
          · rw [List.mem_singleton] at h2
            subst h2
            exact charOfNat_digit (Nat.mod_lt _ (by omega))

theorem digitsToNat_append_digit (A : List Char) (c : Char) :
    digitsToNat (A ++ [c]) = digitsToNat A * 10 + (c.toNat - 48) := by
  unfold digitsToNat
  rw [List.foldl_append]
  rfl

theorem digitsToNat_natDigits (n : Nat) : digitsToNat (natDigits n) = n := by
  induction n using Nat.strong_induction_on with
  | _ n ih =>
      rw [natDigits]
      split
      · next h =>
          show digitsToNat [Char.ofNat (48 + n)] = n
          unfold digitsToNat
          simp only [List.foldl_cons, List.foldl_nil]
          rw [charOfNat_toNat h]
          omega
      · next h =>
          rw [digitsToNat_append_digit,
            ih (n / 10) (Nat.div_lt_self (by omega) (by omega)),
            charOfNat_toNat (Nat.mod_lt _ (by omega))]
          omega

theorem takeWhile_append_all {p : Char → Bool} :
    ∀ {A B : List Char}, (∀ a ∈ A, p a = true) →
      (∀ b, B.head? = some b → p b = false) →
      (A ++ B).takeWhile p = A ∧ (A ++ B).dropWhile p = B := by
  intro A
  induction A with
  | nil =>
      intro B _ hB
      cases B with
      | nil => exact ⟨rfl, rfl⟩
      | cons b bs =>
          have hb := hB b rfl
          constructor
          · simp [List.takeWhile_cons, hb]
          · simp [List.dropWhile_cons, hb]
  | cons a A' ih =>
      intro B hA hB
      have ha : p a = true := hA a (List.mem_cons_self _ _)
      have ihh := ih (fun x hx => hA x (List.mem_cons_of_mem _ hx)) hB
      constructor
      · simp [List.takeWhile_cons, ha, ihh.1]
      · simp [List.dropWhile_cons, ha, ihh.2]

theorem isEmpty_false_of_ne_nil {l : List Char} (h : l ≠ []) :
    l.isEmpty = false := by
  cases l with
  | nil => exact absurd rfl h
  | cons a t => rfl

theorem str_append_ne_empty (a b : String) (hb : b.data ≠ []) :
    a ++ b ≠ "" := by
  intro h
  have hd := congrArg String.data h
  rw [String.data_append] at hd
  exact hb (List.append_eq_nil.mp hd).2

theorem natStr_data (n : Nat) : (natStr n).data = natDigits n := rfl

theorem mkCitation_ne_empty (p : PageEntry) (i : Nat) : mkCitation p i ≠ "" := by
  unfold mkCitation
  exact str_append_ne_empty _ _
    (by rw [natStr_data]; exact natDigits_ne_nil i)

theorem fallback_ne_empty (mgr : CitationMgr) : _fallback_citation mgr ≠ "" := by
  unfold _fallback_citation
  cases mgr.pages with
  | nil => decide
  | cons f r => exact str_append_ne_empty _ _ (by decide)

theorem find_text_citation_ne_empty (mgr : CitationMgr) (text : String) :
    find_text_citation mgr text ≠ "" := by
  unfold find_text_citation
  split
  · exact fallback_ne_empty mgr
  · dsimp only
    split
    · exact mkCitation_ne_empty _ _
    · split
      · exact mkCitation_ne_empty _ _
      · split
        · exact mkCitation_ne_empty _ _
        · exact fallback_ne_empty mgr

theorem parse_components (fname dpg di : List Char)
    (hpg0 : dpg ≠ []) (hpg : ∀ c ∈ dpg, c.isDigit = true)
    (hdi0 : di ≠ []) (hdi : ∀ c ∈ di, c.isDigit = true)
    (hok : fnameOkChars fname = true) :
    parse_citation
        (String.mk (fname ++ ":page".data ++ dpg ++ ":line".data ++ di)) =
      some ⟨String.mk fname, digitsToNat dpg, digitsToNat di⟩ := by
  simp only [parse_citation]
  have hrev : (String.mk
        (fname ++ ":page".data ++ dpg ++ ":line".data ++ di)).data.reverse =
      di.reverse ++ (":line".data.reverse ++
        (dpg.reverse ++ (":page".data.reverse ++ fname.reverse))) := by
    show (fname ++ ":page".data ++ dpg ++ ":line".data ++ di).reverse = _
    simp [List.reverse_append]
  rw [hrev]
  have hdig2 : ∀ c ∈ di.reverse, Char.isDigit c = true := fun c hc =>
    hdi c (List.mem_reverse.mp hc)
  have hhead2 : ∀ b, (":line".data.reverse ++
      (dpg.reverse ++ (":page".data.reverse ++ fname.reverse))).head? = some b →
      Char.isDigit b = false := by
    intro b hb
    have hb' : some 'e' = some b := by
      rw [← hb]
      rfl
    rw [← Option.some.inj hb']
    decide
  have hstep2 := @takeWhile_append_all Char.isDigit di.reverse _ hdig2 hhead2
  rw [hstep2.1, hstep2.2]
  rw [isEmpty_false_of_ne_nil (by simpa using hdi0)]
  simp only [Bool.false_eq_true, if_false]
  have htake1 : (":line".data.reverse ++
      (dpg.reverse ++ (":page".data.reverse ++ fname.reverse))).take 5 =
      ":line".data.reverse :=
    @List.take_left Char ":line".data.reverse
      (dpg.reverse ++ (":page".data.reverse ++ fname.reverse))
  have hdrop1 : (":line".data.reverse ++
      (dpg.reverse ++ (":page".data.reverse ++ fname.reverse))).drop 5 =
      dpg.reverse ++ (":page".data.reverse ++ fname.reverse) :=
    List.drop_left ":line".data.reverse
      (dpg.reverse ++ (":page".data.reverse ++ fname.reverse))
  rw [htake1, hdrop1]
  rw [if_pos (show pyLowerL ":line".data.reverse = "enil:".data from rfl)]
  have hdig1 : ∀ c ∈ dpg.reverse, Char.isDigit c = true := fun c hc =>
    hpg c (List.mem_reverse.mp hc)
  have hhead1 : ∀ b, (":page".data.reverse ++ fname.reverse).head? = some b →
      Char.isDigit b = false := by
    intro b hb
    have hb' : some 'e' = some b := by
      rw [← hb]
      rfl
    rw [← Option.some.inj hb']
    decide
  have hstep1 := @takeWhile_append_all Char.isDigit dpg.reverse _ hdig1 hhead1
  rw [hstep1.1, hstep1.2]
  rw [isEmpty_false_of_ne_nil (by simpa using hpg0)]
  simp only [Bool.false_eq_true, if_false]
  have htake0 : (":page".data.reverse ++ fname.reverse).take 5 =
      ":page".data.reverse :=
    @List.take_left Char ":page".data.reverse fname.reverse
  have hdrop0 : (":page".data.reverse ++ fname.reverse).drop 5 =
      fname.reverse := List.drop_left ":page".data.reverse fname.reverse
  rw [htake0, hdrop0]
  rw [if_pos (show pyLowerL ":page".data.reverse = "egap:".data from rfl)]
  rw [List.reverse_reverse]
  rw [hok]
  simp [List.reverse_reverse]

theorem parse_citation_mkCitation (fname : List Char) (pg i sl el : Nat)
    (hok : fnameOkChars fname = true) :
    parse_citation (mkCitation ⟨String.mk fname, pg, sl, el⟩ i) =
      some ⟨String.mk fname, pg, i⟩ := by
  have hmk : mkCitation ⟨String.mk fname, pg, sl, el⟩ i =
      String.mk (fname ++ ":page".data ++ natDigits pg ++ ":line".data ++
        natDigits i) := rfl
  rw [hmk, parse_components fname (natDigits pg) (natDigits i)
    (natDigits_ne_nil pg) (natDigits_all_digit pg)
    (natDigits_ne_nil i) (natDigits_all_digit i) hok,
    digitsToNat_natDigits, digitsToNat_natDigits]

theorem parse_citation_fallback (s : String) :
    parse_citation (s ++ ":page1") = none := by
  simp only [parse_citation]
  have hdata : (s ++ ":page1").data.reverse =
      '1' :: ('e' :: ('g' :: ('a' :: ('p' :: (':' :: s.data.reverse))))) := by
    rw [String.data_append, List.reverse_append]
    rfl
  rw [hdata]
  rfl

/-- Claim C9 as amended: every citation the extractor assigns is a
non-empty string; a citation built from a located excerpt
(`<filename>:page<N>:line<M>`) is parseable by `parse_citation` whenever
the page's filename is regex-well-formed (at least one character before a
case-insensitive `.pdf` suffix, no newline); but a fallback citation
(`<filename>:page1`, used when the excerpt cannot be located) carries no
`:line` component and is never parseable by the resolver. -/
theorem c9_amended (mgr : CitationMgr) (text : String) (fname : List Char)
    (pg i sl el : Nat) (anyFile : String)
    (h5 : 5 ≤ fname.length)
    (hpdf : endsL ".pdf".data (pyLowerL fname) = true)
    (hnl : fname.all (fun c => !(c == '\n')) = true) :
    find_text_citation mgr text ≠ "" ∧
    parse_citation (mkCitation ⟨String.mk fname, pg, sl, el⟩ i) =
      some ⟨String.mk fname, pg, i⟩ ∧
    parse_citation (anyFile ++ ":page1") = none := by
  refine ⟨find_text_citation_ne_empty mgr text, ?_,
    parse_citation_fallback anyFile⟩
  apply parse_citation_mkCitation
  unfold fnameOkChars
  rw [hpdf, hnl]
  simp [h5]

/-- Witness for C9 (amended): a located excerpt on page 2 line 45 of
`Bestbuytnc1.pdf` parses back exactly; the fallback `unknown:page1` does
not parse. -/
theorem c9_witness :
    find_text_citation c9mgr "refund and return policy details" ≠ "" ∧
    parse_citation (mkCitation ⟨"Bestbuytnc1.pdf", 2, 10, 20⟩ 45) =
      some ⟨"Bestbuytnc1.pdf", 2, 45⟩ ∧
    parse_citation ("unknown" ++ ":page1") = none :=
  c9_amended c9mgr "refund and return policy details" "Bestbuytnc1.pdf".data
    2 45 10 20 "unknown" (by decide) (by decide) (by decide)
